import Mathlib

/-!
Verification of the coordination logic of the SentinelDrive voice assistant
(source: VoiceAssistant.py).  The Python module is embedded shallowly:
timestamps are modelled as integers, the mutable `driver_state` dictionary as
a structure threaded through each operation, queue side effects as explicit
output lists, and the external generative backend as an oracle parameter.
-/

namespace SentinelDrive

/-- Number of recent alerts before a proactive intervention
(`CONSECUTIVE_ALERTS_THRESHOLD = 2`). -/
def CONSECUTIVE_ALERTS_THRESHOLD : Nat := 2

/-- Trailing window, in seconds, over which alerts count (`ALERT_WINDOW = 300`). -/
def ALERT_WINDOW : Int := 300

/-- The shared `driver_state` dictionary.  Field names follow the dictionary
keys of the source.  Alert history entries are `(timestamp, alert type)`. -/
structure DriverState where
  DROWSY : Bool
  DRUNK : Bool
  STRESS : Bool
  STEER : String
  last_alerts : List (Int × String)
  continuous_monitoring : Bool
  last_suggestion : Int
  suggestion_cooldown : Int
  conversation_active : Bool
  crash_detected : Bool
  assistant_state : String
deriving Repr

/-- The initial value of `driver_state` at module load. -/
def init_driver_state : DriverState :=
  { DROWSY := false
    DRUNK := false
    STRESS := false
    STEER := "STRAIGHT"
    last_alerts := []
    continuous_monitoring := true
    last_suggestion := 0
    suggestion_cooldown := 60
    conversation_active := false
    crash_detected := false
    assistant_state := "standby" }

/-- `speak(text)`: enqueue one TTS item and mark the assistant state
`"speaking"`.  The returned list is the sequence of texts pushed onto
`tts_queue` by this call. -/
def speakS (text : String) (st : DriverState) : List String × DriverState :=
  ([text], { st with assistant_state := "speaking" })

/-- `check_alert_threshold()`: prune `last_alerts` to entries with
`now - ts < ALERT_WINDOW` (a mutation of the shared state), return false while
the suggestion cooldown is active, otherwise compare the pruned history length
with `CONSECUTIVE_ALERTS_THRESHOLD`. -/
def check_alert_threshold (st : DriverState) (now : Int) : Bool × DriverState :=
  let st1 : DriverState :=
    { st with last_alerts :=
        st.last_alerts.filter (fun e => decide (now - e.1 < ALERT_WINDOW)) }
  let recent_alerts := st1.last_alerts.length
  ((if now - st1.last_suggestion < st1.suggestion_cooldown then false
    else decide (recent_alerts ≥ CONSECUTIVE_ALERTS_THRESHOLD)), st1)

/-- The dynamic fields interpolated into the context prompt built by
`get_driver_assistance_prompt` (the surrounding literal text of the prompt is
fixed and carries no logic). -/
structure AssistPrompt where
  alerts : List String
  recent_alerts_count : Nat
  steer : String
deriving Repr

/-- `get_driver_assistance_prompt()`: collect the active alert descriptions,
count history entries inside `ALERT_WINDOW` (without mutating the state), and
return `none` when no alert flag is set. -/
def get_driver_assistance_prompt (st : DriverState) (now : Int) :
    Option AssistPrompt :=
  let alerts : List String :=
    (if st.DROWSY then ["drowsiness"] else []) ++
    (if st.DRUNK then ["possible impairment or unwellness"] else []) ++
    (if st.STRESS then ["signs of stress"] else [])
  let recent_alerts_count :=
    (st.last_alerts.filter (fun e => decide (now - e.1 < ALERT_WINDOW))).length
  if alerts = [] then none
  else some ⟨alerts, recent_alerts_count, st.STEER⟩

/-- Outcome of the HTTP call made by `query_ollama`: either a response with a
status code and the (possibly missing) `response` field of the decoded JSON
body, or a raised transport or decoding exception. -/
inductive OllamaResult where
  | response (status : Nat) (body : Option String)
  | exn
deriving Repr

/-- Fallback returned by `query_ollama` on a non-200 status. -/
def ollama_status_fallback : String :=
  "Sorry, I\x27m having trouble thinking right now."

/-- Fallback returned by `query_ollama` when the request raises. -/
def ollama_exn_fallback : String :=
  "Sorry, I can\x27t access my thinking capabilities at the moment."

/-- `query_ollama(prompt, ...)`: on status 200 return the `response` field of
the JSON body (defaulting to the empty string), on any other status return one
fixed apology, and on a raised exception return the other. -/
def query_ollama (r : OllamaResult) : String :=
  match r with
  | .response status body => if status = 200 then body.getD "" else ollama_status_fallback
  | .exn => ollama_exn_fallback

/-- Substring test, modelling the Python `needle in haystack` membership used
by the command matcher. -/
def containsSub (haystack needle : String) : Bool :=
  (haystack.splitOn needle).length ≠ 1

/-- `play_calm_music()`: speaks one fixed acknowledgment (track playback
itself is commented out in the source). -/
def play_calm_music (st : DriverState) : List String × DriverState :=
  speakS "Playing some calming music to help you relax." st

/-- One iteration of `command_processor` on a dequeued command: the ordered
intent chain, with the generative fallback modelled by the oracle `net` for
the HTTP outcome of `query_ollama`; afterwards `conversation_active` is
cleared unconditionally.  The first component is the sequence of texts pushed
onto `tts_queue`. -/
def command_processor_step (net : OllamaResult) (command : String)
    (st : DriverState) : List String × DriverState :=
  let r : List String × DriverState :=
    if containsSub command "play" &&
       (containsSub command "calm" || containsSub command "relaxing" ||
        containsSub command "music") then
      play_calm_music st
    else if containsSub command "stop" && containsSub command "listening" then
      let q := speakS "Voice assistant deactivated. Say gogi to reactivate." st
      (q.1, { q.2 with conversation_active := false })
    else if containsSub command "weather" then
      speakS "Currently 36 degrees Celcius in okhla new delhi with sunny skies, expected to hit 40 degrees celcius at peak." st
    else if containsSub command "distance" then
      speakS "You are about 20 kilometers far from your destination, estimated time remaining is 45 minutes" st
    else if containsSub command "music" then
      speakS "Now playing on spotify" st
    else
      speakS (query_ollama net) st
  (r.1, { r.2 with conversation_active := false })

/-- The fixed collision-check prompt spoken for a CRASH alert. -/
def crash_prompt : String :=
  "I\x27ve detected a possible collision. Are you okay? Please respond or I\x27ll call emergency services."

/-- The reactive half of one `alert_monitor` iteration, processing one
dequeued alert: CRASH speaks the fixed prompt and continues; otherwise an
active conversation suppresses; otherwise `check_alert_threshold` (which
prunes the history) gates a generative suggestion that stamps
`last_suggestion`.  `llm` is the oracle for `query_ollama` on the context
prompt. -/
def alert_monitor_react (llm : AssistPrompt → String) (alert : String)
    (st : DriverState) (now : Int) : List String × DriverState :=
  if alert = "CRASH" then
    speakS crash_prompt st
  else if st.conversation_active then
    ([], st)
  else
    let c := check_alert_threshold st now
    if c.1 then
      match get_driver_assistance_prompt c.2 now with
      | some p =>
        let q := speakS (llm p) c.2
        (q.1, { q.2 with last_suggestion := now })
      | none => ([], c.2)
    else ([], c.2)

/-- The periodic-sweep half of one `alert_monitor` iteration (the code after
`time.sleep(5)`): skip unless continuous monitoring is on; skip unless at
least one of the five listed conditions is true; then, if the cooldown has
elapsed, speak a generative suggestion when a context prompt exists and stamp
`last_suggestion`. -/
def alert_monitor_sweep (llm : AssistPrompt → String) (st : DriverState)
    (now : Int) : List String × DriverState :=
  if st.continuous_monitoring = false then ([], st)
  else if st.DROWSY = false ∧ st.DRUNK = false ∧ st.STRESS = false ∧
          st.crash_detected = false ∧ st.conversation_active = false then
    ([], st)
  else if now - st.last_suggestion ≥ st.suggestion_cooldown then
    match get_driver_assistance_prompt st now with
    | some p =>
      let q := speakS (llm p) st
      (q.1, { q.2 with last_suggestion := now })
    | none => ([], st)
  else ([], st)

/-- The fixed warning spoken immediately at alert ingestion, per alert kind
(the `if`/`elif` chain inside `receive_alert`). -/
def alert_warning (t : String) : String :=
  if t = "DROWSY" then "You seem a bit drowsy. Maybe pull over and rest."
  else if t = "DRUNK" then "You seem impaired. Consider stopping driving."
  else "You seem stressed. Take a moment to relax before continuing."

/-- `driver_state[alert_type] = state` for the three flag-valued keys. -/
def setFlag (st : DriverState) (t : String) (b : Bool) : DriverState :=
  if t = "DROWSY" then { st with DROWSY := b }
  else if t = "DRUNK" then { st with DRUNK := b }
  else if t = "STRESS" then { st with STRESS := b }
  else st

/-- Result of one call to the `/alert` endpoint: the updated state, the texts
pushed onto `tts_queue`, and the identifiers pushed onto `alert_queue`. -/
structure IngestResult where
  st : DriverState
  ttsOut : List String
  alertOut : List String
deriving Repr

/-- `receive_alert`: on DROWSY, DRUNK or STRESS set the flag to `state`, and
when `state` is true append a history entry, enqueue the alert for the
monitor, and immediately speak the fixed kind-specific warning; on STEER
update the direction only; on CRASH set the sticky flag and enqueue
unconditionally. -/
def receive_alert (alert_type : Option String) (state : Bool)
    (direction : Option String) (st : DriverState) (now : Int) : IngestResult :=
  match alert_type with
  | some t =>
    if t = "DROWSY" ∨ t = "DRUNK" ∨ t = "STRESS" then
      let st1 := setFlag st t state
      if state then
        let st2 := { st1 with last_alerts := st1.last_alerts ++ [(now, t)] }
        let q := speakS (alert_warning t) st2
        ⟨q.2, q.1, [t]⟩
      else ⟨st1, [], []⟩
    else if t = "STEER" then
      ⟨{ st with STEER := direction.getD "STRAIGHT" }, [], []⟩
    else if t = "CRASH" then
      ⟨{ st with crash_detected := true }, [], ["CRASH"]⟩
    else ⟨st, [], []⟩
  | none => ⟨st, [], []⟩

/-- The two globals written by the body of `tts_worker`. -/
structure GateState where
  global_mic_active : Bool
  assistant_state : String
deriving Repr

/-- The processing of one dequeued TTS item by `tts_worker`, line by line:
if synthesis raises, the handler unmutes the gate and restores `"standby"`;
otherwise mute, set `"speaking"`, play, and — whether or not playback
raises — unmute and restore `"standby"`. -/
def tts_worker_item (synth_ok play_ok : Bool) (s : GateState) : GateState :=
  if synth_ok = false then
    { s with global_mic_active := true, assistant_state := "standby" }
  else
    let s1 : GateState := { s with global_mic_active := false }
    let s2 : GateState := { s1 with assistant_state := "speaking" }
    if play_ok = false then
      { s2 with global_mic_active := true, assistant_state := "standby" }
    else
      let s3 : GateState := { s2 with global_mic_active := true }
      { s3 with assistant_state := "standby" }

/-! ### Interleaved model of the worker threads

For the claims about execution traces, each Python statement of the relevant
threads is an atomic step on a global state; threads interleave freely.
Program counters record where the `tts_worker` and `wake_word_detector`
threads stand inside their loop bodies.  Calls to `speak` from the other
threads (`command_processor`, `alert_monitor`, `receive_alert`, `main`) are
the unguarded `ext_` steps, since those callers can run at any time. -/

/-- Position of `tts_worker` inside its loop body. -/
inductive TtsPc where
  | idle        -- waiting at the queue poll
  | gotText     -- after `tts_queue.get()`, before synthesis
  | synthed     -- after the gTTS save, before muting
  | muted       -- after `global_mic_active = False`
  | playing     -- after `set_assistant_state("speaking")`, during playback
  | played      -- playback finished, before unmuting
  | unmuted     -- after `global_mic_active = True`
  | failed      -- an exception was raised inside the try block
  | failedUnmuted -- handler has unmuted, before restoring the state
deriving Repr, DecidableEq

/-- Position of `wake_word_detector` inside its loop body. -/
inductive WakePc where
  | wIdle       -- listening for the wake word
  | wHeard      -- wake word recognized
  | wMuted      -- after `global_mic_active = False`
  | wConv       -- after `conversation_active = True`
  | wModeSet    -- after `set_assistant_state("listening")`
  | wPrompted   -- prompt enqueued, before `speak` sets the state
  | wWaiting    -- polling until the gate reopens
  | wGateOpen   -- gate observed open
  | wCapturing  -- listening for the command
  | wFailSpoke  -- failure apology enqueued, before `speak` sets the state
deriving Repr, DecidableEq

/-- Global state shared by the threads: the mic gate, the dashboard-visible
assistant state, the conversation flag, the two queues the modelled threads
touch, and the two program counters. -/
structure Sys where
  global_mic_active : Bool
  assistant_state : String
  conversation_active : Bool
  tts_queue : List String
  speech_queue : List String
  ttsPc : TtsPc
  tts_current : Option String
  wakePc : WakePc
deriving Repr

/-- The state at module load: gate open, `"standby"`, empty queues, both
threads at the top of their loops. -/
def init_sys : Sys :=
  { global_mic_active := true
    assistant_state := "standby"
    conversation_active := false
    tts_queue := []
    speech_queue := []
    ttsPc := TtsPc.idle
    tts_current := none
    wakePc := WakePc.wIdle }

/-- One atomic step of one thread of VoiceAssistant.py. -/
inductive Step : Sys → Sys → Prop where
  -- tts_worker
  | tts_dequeue (s : Sys) (t : String) (rest : List String)
      (hpc : s.ttsPc = TtsPc.idle) (hq : s.tts_queue = t :: rest) :
      Step s { s with tts_queue := rest, tts_current := some t,
                      ttsPc := TtsPc.gotText }
  | tts_synth_ok (s : Sys) (hpc : s.ttsPc = TtsPc.gotText) :
      Step s { s with ttsPc := TtsPc.synthed }
  | tts_mute (s : Sys) (hpc : s.ttsPc = TtsPc.synthed) :
      Step s { s with global_mic_active := false, ttsPc := TtsPc.muted }
  | tts_mode_speaking (s : Sys) (hpc : s.ttsPc = TtsPc.muted) :
      Step s { s with assistant_state := "speaking", ttsPc := TtsPc.playing }
  | tts_play_done (s : Sys) (hpc : s.ttsPc = TtsPc.playing) :
      Step s { s with ttsPc := TtsPc.played }
  | tts_unmute (s : Sys) (hpc : s.ttsPc = TtsPc.played) :
      Step s { s with global_mic_active := true, ttsPc := TtsPc.unmuted }
  | tts_mode_standby (s : Sys) (hpc : s.ttsPc = TtsPc.unmuted) :
      Step s { s with assistant_state := "standby", ttsPc := TtsPc.idle,
                      tts_current := none }
  -- an exception anywhere inside the try block, then the two handler lines
  | tts_fail (s : Sys)
      (hpc : s.ttsPc = TtsPc.gotText ∨ s.ttsPc = TtsPc.synthed ∨
             s.ttsPc = TtsPc.muted ∨ s.ttsPc = TtsPc.playing ∨
             s.ttsPc = TtsPc.played ∨ s.ttsPc = TtsPc.unmuted) :
      Step s { s with ttsPc := TtsPc.failed }
  | tts_fail_unmute (s : Sys) (hpc : s.ttsPc = TtsPc.failed) :
      Step s { s with global_mic_active := true, ttsPc := TtsPc.failedUnmuted }
  | tts_fail_standby (s : Sys) (hpc : s.ttsPc = TtsPc.failedUnmuted) :
      Step s { s with assistant_state := "standby", ttsPc := TtsPc.idle,
                      tts_current := none }
  -- wake_word_detector
  | wake_hear (s : Sys) (hpc : s.wakePc = WakePc.wIdle)
      (hm : s.global_mic_active = true) :
      Step s { s with wakePc := WakePc.wHeard }
  | wake_mute (s : Sys) (hpc : s.wakePc = WakePc.wHeard) :
      Step s { s with global_mic_active := false, wakePc := WakePc.wMuted }
  | wake_conv (s : Sys) (hpc : s.wakePc = WakePc.wMuted) :
      Step s { s with conversation_active := true, wakePc := WakePc.wConv }
  | wake_mode_listening (s : Sys) (hpc : s.wakePc = WakePc.wConv) :
      Step s { s with assistant_state := "listening", wakePc := WakePc.wModeSet }
  | wake_prompt_enq (s : Sys) (hpc : s.wakePc = WakePc.wModeSet) :
      Step s { s with tts_queue := s.tts_queue ++ ["How can I help you?"],
                      wakePc := WakePc.wPrompted }
  | wake_prompt_mode (s : Sys) (hpc : s.wakePc = WakePc.wPrompted) :
      Step s { s with assistant_state := "speaking", wakePc := WakePc.wWaiting }
  | wake_gate_open (s : Sys) (hpc : s.wakePc = WakePc.wWaiting)
      (hm : s.global_mic_active = true) :
      Step s { s with wakePc := WakePc.wGateOpen }
  | wake_mode_listening2 (s : Sys) (hpc : s.wakePc = WakePc.wGateOpen) :
      Step s { s with assistant_state := "listening", wakePc := WakePc.wCapturing }
  | wake_capture_ok (s : Sys) (c : String) (hpc : s.wakePc = WakePc.wCapturing) :
      Step s { s with speech_queue := s.speech_queue ++ [c],
                      wakePc := WakePc.wIdle }
  | wake_capture_fail_enq (s : Sys) (msg : String)
      (hpc : s.wakePc = WakePc.wCapturing)
      (hmsg : msg = "Sorry, I didn\x27t catch that." ∨
              msg = "Speech service is unavailable right now.") :
      Step s { s with tts_queue := s.tts_queue ++ [msg],
                      wakePc := WakePc.wFailSpoke }
  | wake_capture_fail_mode (s : Sys) (hpc : s.wakePc = WakePc.wFailSpoke) :
      Step s { s with assistant_state := "speaking", wakePc := WakePc.wIdle }
  -- `speak` from any other thread: enqueue, then set the assistant state
  | ext_speak_enq (s : Sys) (t : String) :
      Step s { s with tts_queue := s.tts_queue ++ [t] }
  | ext_mode_speaking (s : Sys) :
      Step s { s with assistant_state := "speaking" }
  -- `command_processor` clearing the conversation flag
  | ext_conv_clear (s : Sys) :
      Step s { s with conversation_active := false }

/-- States reachable from module load by interleaved thread steps. -/
inductive Reach : Sys → Prop where
  | init : Reach init_sys
  | step {s t : Sys} : Reach s → Step s t → Reach t

/-! ### Example states used by witnesses and counterexamples -/

/-- Two DROWSY alerts at times 0 and 10 with the last suggestion at time 5
(the cooldown scenario of the specification). -/
def c1_state : DriverState :=
  { init_driver_state with
      last_alerts := [((0 : Int), "DROWSY"), ((10 : Int), "DROWSY")]
      last_suggestion := 5 }

/-! ### Claims -/

/-- Claim C1: for every alert history and every current time, if
`now - last_suggestion` is strictly below the cooldown, `check_alert_threshold`
returns false regardless of how many entries the pruned history contains. -/
theorem cooldown_blocks_intervention (st : DriverState) (now : Int)
    (h : now - st.last_suggestion < st.suggestion_cooldown) :
    (check_alert_threshold st now).1 = false := by
  simp [check_alert_threshold, h]

/-- Witness for C1: the cooldown scenario (two recent alerts, last suggestion
at time 5, queried at time 15) yields false. -/
theorem cooldown_blocks_intervention_witness :
    (15 : Int) - c1_state.last_suggestion < c1_state.suggestion_cooldown ∧
    (check_alert_threshold c1_state 15).1 = false :=
  ⟨by decide, cooldown_blocks_intervention c1_state 15 (by decide)⟩

/-- Claim C5: every entry of the history left by `check_alert_threshold`
(the count used for the threshold) has age strictly below `ALERT_WINDOW`, so
an entry of age exactly `ALERT_WINDOW` is excluded. -/
theorem pruned_entries_within_window (st : DriverState) (now : Int)
    (e : Int × String)
    (h : e ∈ ((check_alert_threshold st now).2).last_alerts) :
    now - e.1 < ALERT_WINDOW := by
  simp [check_alert_threshold, List.mem_filter] at h
  exact h.2

/-- Witness for C5: an entry of age 10 survives pruning and is inside the
window. -/
theorem pruned_entries_within_window_witness :
    ((0 : Int), "DROWSY") ∈
      ((check_alert_threshold
        { init_driver_state with last_alerts := [((0 : Int), "DROWSY")] }
        10).2).last_alerts ∧
    (10 : Int) - ((0 : Int), "DROWSY").1 < ALERT_WINDOW :=
  ⟨by decide,
   pruned_entries_within_window
     { init_driver_state with last_alerts := [((0 : Int), "DROWSY")] }
     10 ((0 : Int), "DROWSY") (by decide)⟩

/-- Claim C4: a dequeued CRASH alert makes `alert_monitor_react` speak the
fixed collision-check prompt for every state — conversation activity, the
cooldown and the alert count are never consulted, and the only other effect
is the `"speaking"` mark set by `speak`. -/
theorem crash_overrides_all (llm : AssistPrompt → String) (st : DriverState)
    (now : Int) :
    alert_monitor_react llm "CRASH" st now =
      ([crash_prompt], { st with assistant_state := "speaking" }) := by
  simp [alert_monitor_react, speakS]

/-- Claim C7: whatever the outcome of synthesis and playback, processing one
TTS item ends with the mic gate open and the assistant state `"standby"`. -/
theorem tts_worker_releases_gate (synth_ok play_ok : Bool) (s : GateState) :
    (tts_worker_item synth_ok play_ok s).global_mic_active = true ∧
    (tts_worker_item synth_ok play_ok s).assistant_state = "standby" := by
  cases synth_ok <;> cases play_ok <;> simp [tts_worker_item]

/-- Claim C8: after one `command_processor` iteration, `conversation_active`
is false whichever intent branch ran. -/
theorem router_clears_conversation (net : OllamaResult) (command : String)
    (st : DriverState) :
    ((command_processor_step net command st).2).conversation_active = false :=
  rfl

/-- Claim C6: each dequeued command enqueues exactly one TTS response,
whichever branch of the intent chain fires. -/
theorem router_total (net : OllamaResult) (command : String)
    (st : DriverState) (_h : command ≠ "") :
    ((command_processor_step net command st).1).length = 1 := by
  simp only [command_processor_step, play_calm_music, speakS]
  split_ifs <;> rfl

/-- Witness for C6: the weather command produces one response. -/
theorem router_total_witness :
    "weather" ≠ "" ∧
    ((command_processor_step OllamaResult.exn "weather"
        init_driver_state).1).length = 1 :=
  ⟨by decide, router_total OllamaResult.exn "weather" init_driver_state (by decide)⟩

/-- Claim C9: `query_ollama` is a total function of the HTTP outcome: a 200
response yields the generated text, and every other outcome yields one of the
two fixed apology strings. -/
theorem query_ollama_never_raises (r : OllamaResult) :
    (∀ body : Option String,
      r = OllamaResult.response 200 body → query_ollama r = body.getD "") ∧
    ((∀ body : Option String, r ≠ OllamaResult.response 200 body) →
      query_ollama r = ollama_status_fallback ∨
      query_ollama r = ollama_exn_fallback) := by
  constructor
  · rintro body rfl
    simp [query_ollama]
  · intro h
    match r with
    | OllamaResult.exn => exact Or.inr rfl
    | OllamaResult.response status body =>
      have hs : status ≠ 200 := fun hs => h body (by rw [hs])
      exact Or.inl (by simp [query_ollama, hs])

/-- Witness for C9: a 200 response returns its text; an exception returns a
fixed fallback. -/
theorem query_ollama_never_raises_witness :
    query_ollama (OllamaResult.response 200 (some "pull over")) = "pull over" ∧
    (query_ollama OllamaResult.exn = ollama_status_fallback ∨
     query_ollama OllamaResult.exn = ollama_exn_fallback) :=
  ⟨(query_ollama_never_raises _).1 (some "pull over") rfl,
   (query_ollama_never_raises OllamaResult.exn).2 (fun _ h => nomatch h)⟩

/-- Claim C10: ingesting DROWSY, DRUNK or STRESS with `state = true` speaks
the fixed kind-specific warning immediately — for every state, hence without
consulting the threshold, the cooldown or `conversation_active` — and also
appends the history entry and enqueues the alert for the monitor. -/
theorem ingestion_warns_immediately (st : DriverState) (now : Int) (k : String)
    (h : k = "DROWSY" ∨ k = "DRUNK" ∨ k = "STRESS") :
    (receive_alert (some k) true none st now).ttsOut = [alert_warning k] ∧
    (receive_alert (some k) true none st now).alertOut = [k] ∧
    (receive_alert (some k) true none st now).st.last_alerts =
      st.last_alerts ++ [(now, k)] := by
  rcases h with rfl | rfl | rfl <;>
    simp [receive_alert, setFlag, speakS, alert_warning]

/-- Witness for C10: a DROWSY ingestion at time 5 from the initial state. -/
theorem ingestion_warns_immediately_witness :
    ("DROWSY" = "DROWSY" ∨ "DROWSY" = "DRUNK" ∨ "DROWSY" = "STRESS") ∧
    ((receive_alert (some "DROWSY") true none init_driver_state 5).ttsOut =
        [alert_warning "DROWSY"] ∧
     (receive_alert (some "DROWSY") true none init_driver_state 5).alertOut =
        ["DROWSY"] ∧
     (receive_alert (some "DROWSY") true none init_driver_state 5).st.last_alerts =
        init_driver_state.last_alerts ++ [((5 : Int), "DROWSY")]) :=
  ⟨Or.inl rfl,
   ingestion_warns_immediately init_driver_state 5 "DROWSY" (Or.inl rfl)⟩

/-! ### C2: the mode/gate invariant over execution traces -/

/-- The state after `main` has enqueued its startup announcement and `speak`
has marked the assistant `"speaking"`, while the gate is still open. -/
def c2_bad_state : Sys :=
  { init_sys with
      tts_queue := ["Assistant starting up."]
      assistant_state := "speaking" }

/-- Intermediate trace states for the C2 witness: the startup announcement is
enqueued, dequeued, synthesized, and the gate is muted. -/
def c2_s1 : Sys := { init_sys with tts_queue := ["Assistant starting up."] }

/-- See `c2_s1`. -/
def c2_s2 : Sys :=
  { c2_s1 with
      tts_queue := []
      tts_current := some "Assistant starting up."
      ttsPc := TtsPc.gotText }

/-- See `c2_s1`. -/
def c2_s3 : Sys := { c2_s2 with ttsPc := TtsPc.synthed }

/-- See `c2_s1`. -/
def c2_muted_state : Sys :=
  { c2_s3 with global_mic_active := false, ttsPc := TtsPc.muted }

/-- Claim C2 (counterexample): a reachable state where the assistant state is
`"speaking"` while the mic gate is still open — `speak` marks `"speaking"` at
enqueue time, before `tts_worker` mutes the gate — so the claimed invariant
is false at this point of this execution. -/
theorem speaking_with_open_mic_reachable :
    Reach c2_bad_state ∧ c2_bad_state.assistant_state = "speaking" ∧
    c2_bad_state.global_mic_active = true := by
  refine ⟨?_, rfl, rfl⟩
  exact Reach.step
    (Reach.step Reach.init (Step.ext_speak_enq init_sys "Assistant starting up."))
    (Step.ext_mode_speaking c2_s1)

/-- Claim C2 (amended): in every reachable state in which the TTS worker is
between muting the gate and finishing playback, the mic gate is muted; the
assistant-mode flag itself does not track the gate. -/
theorem mic_muted_during_playback {s : Sys} (h : Reach s)
    (hp : s.ttsPc = TtsPc.muted ∨ s.ttsPc = TtsPc.playing) :
    s.global_mic_active = false := by
  have inv : ∀ t : Sys, Reach t →
      (t.ttsPc = TtsPc.muted ∨ t.ttsPc = TtsPc.playing) →
      t.global_mic_active = false := by
    intro t ht
    induction ht with
    | init => intro hp; rcases hp with hp | hp <;> simp [init_sys] at hp
    | step hr hst ih => cases hst <;> intro hp <;> simp_all
  exact inv s h hp

/-- Witness for the amended C2: the concrete trace enqueue → dequeue →
synthesize → mute reaches a muted-phase state, and there the gate is muted. -/
theorem mic_muted_during_playback_witness :
    Reach c2_muted_state ∧
    (c2_muted_state.ttsPc = TtsPc.muted ∨ c2_muted_state.ttsPc = TtsPc.playing) ∧
    c2_muted_state.global_mic_active = false := by
  have r1 : Reach c2_s1 :=
    Reach.step Reach.init (Step.ext_speak_enq init_sys "Assistant starting up.")
  have r2 : Reach c2_s2 :=
    Reach.step r1 (Step.tts_dequeue c2_s1 "Assistant starting up." [] rfl rfl)
  have r3 : Reach c2_s3 := Reach.step r2 (Step.tts_synth_ok c2_s2 rfl)
  have r4 : Reach c2_muted_state := Reach.step r3 (Step.tts_mute c2_s3 rfl)
  exact ⟨r4, Or.inl rfl, mic_muted_during_playback r4 (Or.inl rfl)⟩

/-! ### C3: the periodic sweep versus the reactive path -/

/-- A state with one drowsiness flag, an active conversation, an empty alert
history and an elapsed cooldown. -/
def c3_state : DriverState :=
  { init_driver_state with DROWSY := true, conversation_active := true }

/-- A state with one drowsiness flag and an elapsed cooldown. -/
def c3_w_state : DriverState := { init_driver_state with DROWSY := true }

/-- Claim C3 (counterexample): the sweep speaks in a state where the reactive
path's conversation-active suppression would apply and where
`check_alert_threshold` is false (empty history), so the sweep applies
neither of those checks. -/
theorem sweep_differs_from_reactive_path :
    ((alert_monitor_sweep (fun _ => "sweep suggestion") c3_state 100).1).length = 1 ∧
    c3_state.conversation_active = true ∧
    (check_alert_threshold c3_state 100).1 = false := by
  exact ⟨rfl, rfl, by decide⟩

/-- Claim C3 (amended): the periodic sweep speaks a suggestion exactly when
continuous monitoring is on, at least one of the drowsy, drunk, stress,
crash-detected or conversation-active conditions is true, the cooldown has
elapsed, and at least one of the three alert flags is set (so that a context
prompt exists); it applies neither the conversation-active suppression nor
the `check_alert_threshold` count check of the reactive path. -/
theorem sweep_speaks_iff (llm : AssistPrompt → String) (st : DriverState)
    (now : Int) :
    (alert_monitor_sweep llm st now).1 ≠ [] ↔
      (st.continuous_monitoring = true ∧
       (st.DROWSY = true ∨ st.DRUNK = true ∨ st.STRESS = true ∨
        st.crash_detected = true ∨ st.conversation_active = true) ∧
       now - st.last_suggestion ≥ st.suggestion_cooldown ∧
       (st.DROWSY = true ∨ st.DRUNK = true ∨ st.STRESS = true)) := by
  by_cases hcd : now - st.last_suggestion ≥ st.suggestion_cooldown <;>
  cases hcm : st.continuous_monitoring <;>
  cases hD : st.DROWSY <;> cases hU : st.DRUNK <;> cases hS : st.STRESS <;>
  cases hcr : st.crash_detected <;> cases hca : st.conversation_active <;>
    simp [alert_monitor_sweep, get_driver_assistance_prompt, speakS,
          hcd, hcm, hD, hU, hS, hcr, hca]

/-- Witness for the amended C3: with only the drowsiness flag set and the
cooldown elapsed, the sweep speaks. -/
theorem sweep_speaks_iff_witness :
    (alert_monitor_sweep (fun _ => "take a break") c3_w_state 200).1 ≠ [] :=
  (sweep_speaks_iff (fun _ => "take a break") c3_w_state 200).mpr
    ⟨rfl, Or.inl rfl, by decide, Or.inl rfl⟩

end SentinelDrive
